import Mathlib

/-!
Verification of the core logic of the FCNET battery monitor: the
voltage-to-SOC estimator and publish gate from the ESP32 sketch
(ESP32_Battery_Monitor_FCNET.ino), and the backend's MQTT message
processing and Telegram alert machinery (mqtt.servicio.js,
telegram.servicio.js, configuracion.js).  Floating-point quantities are
modelled as exact rationals; machine behaviour at the boundary of float
precision is outside this development.
-/

namespace BateriaMonitor

/-! ## Estimator (ESP32 sketch) -/

/-- Battery capacity in Ah (`CAP_AH = 100.0f` in the sketch). -/
def CAP_AH : ℚ := 100

/-- Full-charge voltage (`V_MAX_FULL = 26.5f`). -/
def V_MAX_FULL : ℚ := 53/2

/-- Empty voltage (`V_MIN_EMPTY = 20.8f`). -/
def V_MIN_EMPTY : ℚ := 104/5

/-- Body of `calculateSOC_voltage`, with the two voltage constants as
parameters so that configuration variants can be stated; the sketch fixes
them to `V_MIN_EMPTY`/`V_MAX_FULL`.  Linear interpolation followed by the
two clamping `if`s, exactly as in the source. -/
def calculateSOC_core (vMin vMax voltage : ℚ) : ℚ :=
  if 100 * (voltage - vMin) / (vMax - vMin) < 0 then 0
  else if 100 * (voltage - vMin) / (vMax - vMin) > 100 then 100
  else 100 * (voltage - vMin) / (vMax - vMin)

/-- `calculateSOC_voltage` from the sketch: the core at the sketch's
constants. -/
def calculateSOC_voltage (voltage : ℚ) : ℚ :=
  calculateSOC_core V_MIN_EMPTY V_MAX_FULL voltage

/-- `estimateTimeToFull_hours` from the sketch: `-1` when not charging,
otherwise needed amp-hours over charging current derated by 0.95. -/
def estimateTimeToFull_hours (current soc : ℚ) : ℚ :=
  if 0 ≤ current then -1
  else (CAP_AH * (100 - soc) / 100) / ((-current) * (19/20))

/-- `estimateTimeToEmpty_hours` from the sketch: `-1` when not
discharging, otherwise available amp-hours over discharge current. -/
def estimateTimeToEmpty_hours (current soc : ℚ) : ℚ :=
  if current ≤ 0 then -1
  else (CAP_AH * soc / 100) / current

/-! ## Mode classification (backend, mqtt.servicio.js) -/

/-- The `estado` strings produced by the backend (`Desconocido` is the
initial placeholder in `ultimoEstado`). -/
inductive Estado where
  | Cargando
  | Descargando
  | Reposo
  | Desconocido
deriving DecidableEq, Repr

/-- `determinarEstado` from mqtt.servicio.js: ±0.1 A deadband around
zero current. -/
def determinarEstado (corriente : ℚ) : Estado :=
  if corriente < -(1/10) then Estado.Cargando
  else if corriente > 1/10 then Estado.Descargando
  else Estado.Reposo

/-! ## Change gate (ESP32 sketch, `loop`) -/

/-- The sketch's publish baseline: globals `lastSOC`, `lastV`, `lastI`,
each initialised to `-1`. -/
structure GateState where
  lastSOC : ℚ
  lastV : ℚ
  lastI : ℚ
deriving DecidableEq, Repr

/-- The initial baseline `lastSOC = -1, lastV = -1, lastI = -1`. -/
def initialGate : GateState := ⟨-1, -1, -1⟩

/-- The sketch's publish decision: sequential `if`s setting `pub`, one per
condition, in source order. -/
def computePub (g : GateState) (V I SOC : ℚ) : Bool :=
  let pub := false
  let pub := if g.lastSOC = -1 then true else pub
  let pub := if 1/2 ≤ |SOC - g.lastSOC| then true else pub
  let pub := if 1/10 ≤ |V - g.lastV| then true else pub
  let pub := if 1/5 ≤ |I - g.lastI| then true else pub
  pub

/-- One pass of the publish branch of `loop`: when the decision is
positive and the MQTT client is connected, the message is attempted and
the baseline is overwritten only if `mqttClient.publish` succeeds.
`connected` and `publishOk` model the MQTT client's externally determined
behaviour.  Returns the new baseline and the decision `pub`. -/
def loopStep (g : GateState) (V I SOC : ℚ) (connected publishOk : Bool) :
    GateState × Bool :=
  let pub := computePub g V I SOC
  if pub && connected then
    if publishOk then ({ lastSOC := SOC, lastV := V, lastI := I }, pub)
    else (g, pub)
  else (g, pub)

/-! ## Telegram alert service (backend, telegram.servicio.js) -/

/-- `config.telegram.alertas.bateriaBaja` (configuracion.js): SOC below
this fires the low-battery alert. -/
def bateriaBaja : ℚ := 20

/-- `config.telegram.alertas.recuperacion`: SOC at or above this resets
the one-shot alert flag. -/
def recuperacion : ℚ := 25

/-- `config.telegram.maxSuscriptores`. -/
def maxSuscriptores : Nat := 10

/-- The mutable state of `ServicioTelegram` that the claims touch: the
subscriber set (a JS `Set` of chat ids, modelled as a duplicate-free
list) and the one-shot `alertaBajaEnviada` flag.  The flag false is the
spec's Normal state, true is AlertActive. -/
structure TelegramState where
  suscriptores : List Nat
  alertaBajaEnviada : Bool
deriving DecidableEq, Repr

/-- The service's initial state: no subscribers, flag down. -/
def telegramInicial : TelegramState := ⟨[], false⟩

/-- `enviarAlertaBateriaBaja`: returns the chat ids the alert message is
sent to — nobody when the subscriber set is empty (early return),
otherwise every subscriber. -/
def enviarAlertaBateriaBaja (st : TelegramState) : List Nat :=
  if st.suscriptores.length = 0 then [] else st.suscriptores

/-- The `nuevosDatos` handler installed by `configurarAlertas`, for one
incoming SOC value.  Returns the new state, whether the alert fired
(`enviarAlertaBateriaBaja` was invoked and the flag raised), whether the
flag-reset transition AlertActive → Normal happened, and the list of
chat ids that received the alert message.  The two `if`s run in source
order: first the fire check against the old flag, then the recovery
reset. -/
def onNuevosDatos (st : TelegramState) (soc : ℚ) :
    TelegramState × Bool × Bool × List Nat :=
  let fired : Bool := if soc < bateriaBaja ∧ st.alertaBajaEnviada = false
    then true else false
  let enviados := if fired then enviarAlertaBateriaBaja st else []
  let flag1 : Bool := if fired then true else st.alertaBajaEnviada
  let recovered : Bool := if recuperacion ≤ soc ∧ flag1 = true
    then true else false
  let flag2 : Bool := if recuperacion ≤ soc then false else flag1
  ({ st with alertaBajaEnviada := flag2 }, fired, recovered, enviados)

/-- Feed a list of SOC readings through the handler, collecting the
(fired, recovered) event pair of every step. -/
def runAlertas : TelegramState → List ℚ → TelegramState × List (Bool × Bool)
  | st, [] => (st, [])
  | st, soc :: rest =>
    let r := onNuevosDatos st soc
    let r2 := runAlertas r.1 rest
    (r2.1, (r.2.1, r.2.2.1) :: r2.2)

/-- Feed a list of SOC readings through the handler, collecting every
alert delivery (concatenated recipient lists). -/
def runAlertasEnviados : TelegramState → List ℚ → TelegramState × List Nat
  | st, [] => (st, [])
  | st, soc :: rest =>
    let r := onNuevosDatos st soc
    let r2 := runAlertasEnviados r.1 rest
    (r2.1, r.2.2.2 ++ r2.2)

/-- `agregarSuscriptor`: rejected at the cap (checked first), rejected
for an existing member, otherwise added. -/
def agregarSuscriptor (st : TelegramState) (chatId : Nat) :
    TelegramState × Bool :=
  if maxSuscriptores ≤ st.suscriptores.length then (st, false)
  else if chatId ∈ st.suscriptores then (st, false)
  else ({ st with suscriptores := chatId :: st.suscriptores }, true)

/-- `eliminarSuscriptor`: removes a member and reports true, or reports
false for a non-member with no change. -/
def eliminarSuscriptor (st : TelegramState) (chatId : Nat) :
    TelegramState × Bool :=
  if chatId ∈ st.suscriptores then
    ({ st with suscriptores := st.suscriptores.erase chatId }, true)
  else (st, false)

/-- A subscriber-management request. -/
inductive OpSuscriptor where
  | suscribir (chatId : Nat)
  | desuscribir (chatId : Nat)

/-- Run a sequence of subscribe/unsubscribe requests. -/
def runSuscriptores : TelegramState → List OpSuscriptor → TelegramState
  | st, [] => st
  | st, OpSuscriptor.suscribir id :: rest =>
    runSuscriptores (agregarSuscriptor st id).1 rest
  | st, OpSuscriptor.desuscribir id :: rest =>
    runSuscriptores (eliminarSuscriptor st id).1 rest

/-! ## MQTT message processing (backend, mqtt.servicio.js) -/

/-- A parsed JSON payload from the `fcnet/battery/data` topic; `none`
fields are absent keys (JS `undefined`). -/
structure DatosCrudos where
  voltage : Option ℚ
  current : Option ℚ
  soc : Option ℚ
  time_to_full : Option ℚ
  time_to_empty : Option ℚ
deriving DecidableEq, Repr

/-- The service's `ultimoEstado` object.  `hasTimestamp` models whether
the `timestamp` field has been set (it is `null` until the first
processed message). -/
structure UltimoEstado where
  voltage : ℚ
  current : ℚ
  soc : ℚ
  time_to_full : ℚ
  time_to_empty : ℚ
  hasTimestamp : Bool
  estado : Estado
deriving DecidableEq, Repr

/-- The constructor-time `ultimoEstado`: zeros, no timestamp, estado
string Desconocido. -/
def ultimoEstadoInicial : UltimoEstado :=
  ⟨0, 0, 0, 0, 0, false, Estado.Desconocido⟩

/-- `procesarMensaje`: `none` is a payload `JSON.parse` throws on — the
catch block leaves the stored state untouched and emits nothing.  A
parsed payload always replaces `ultimoEstado`, coercing each absent
field to 0 (the JS `datos.campo || 0`), and emits the `nuevosDatos`
event.  The returned Bool is whether the event was emitted. -/
def procesarMensaje (st : UltimoEstado) (mensaje : Option DatosCrudos) :
    UltimoEstado × Bool :=
  match mensaje with
  | none => (st, false)
  | some datos =>
    (⟨datos.voltage.getD 0, datos.current.getD 0, datos.soc.getD 0,
      datos.time_to_full.getD 0, datos.time_to_empty.getD 0, true,
      determinarEstado (datos.current.getD 0)⟩, true)

end BateriaMonitor

namespace BateriaMonitor

/-- C4: for every voltage the computed SOC lies in [0,100]; it is 0 at or
below `V_MIN_EMPTY`, 100 at or above `V_MAX_FULL`, and the plain linear
interpolation strictly between the bounds. -/
theorem C4_soc_clamped (v : ℚ) :
    0 ≤ calculateSOC_voltage v ∧ calculateSOC_voltage v ≤ 100 ∧
    (v ≤ V_MIN_EMPTY → calculateSOC_voltage v = 0) ∧
    (V_MAX_FULL ≤ v → calculateSOC_voltage v = 100) ∧
    (V_MIN_EMPTY < v → v < V_MAX_FULL →
      calculateSOC_voltage v =
        100 * (v - V_MIN_EMPTY) / (V_MAX_FULL - V_MIN_EMPTY)) := by
  have hconst : V_MAX_FULL - V_MIN_EMPTY = 57/10 := by
    simp [V_MAX_FULL, V_MIN_EMPTY]; norm_num
  have hraw : 100 * (v - V_MIN_EMPTY) / (V_MAX_FULL - V_MIN_EMPTY) =
      (1000/57) * v - 20800/57 := by
    rw [hconst, V_MIN_EMPTY]; ring
  unfold calculateSOC_voltage calculateSOC_core
  rw [hraw]
  refine ⟨?_, ?_, ?_, ?_, ?_⟩
  · split_ifs with h1 h2 <;> norm_num <;> linarith
  · split_ifs with h1 h2 <;> norm_num <;> linarith
  · intro hv
    rw [V_MIN_EMPTY] at hv
    split_ifs with h1 h2 <;> [rfl; linarith; linarith]
  · intro hv
    rw [V_MAX_FULL] at hv
    split_ifs with h1 h2 <;> [skip; rfl; skip] <;> linarith
  · intro hlo hhi
    rw [V_MIN_EMPTY] at hlo
    rw [V_MAX_FULL] at hhi
    split_ifs with h1 h2 <;> [skip; skip; rfl] <;> linarith

/-- C4 witness: the three conditional branches exercised at voltages 20,
27 and 22. -/
theorem C4_soc_clamped_witness :
    calculateSOC_voltage 20 = 0 ∧ calculateSOC_voltage 27 = 100 ∧
    calculateSOC_voltage 22 =
      100 * (22 - V_MIN_EMPTY) / (V_MAX_FULL - V_MIN_EMPTY) :=
  ⟨(C4_soc_clamped 20).2.2.1 (by rw [V_MIN_EMPTY]; norm_num),
   (C4_soc_clamped 27).2.2.2.1 (by rw [V_MAX_FULL]; norm_num),
   (C4_soc_clamped 22).2.2.2.2 (by rw [V_MIN_EMPTY]; norm_num)
     (by rw [V_MAX_FULL]; norm_num)⟩

/-- C2: with the baseline still at its `-1` sentinel the decision is
true; with an established baseline the decision is true exactly when at
least one of the three deltas reaches its threshold (voltage 0.1,
current 0.2, SOC 0.5) — an OR of the three tests. -/
theorem C2_gate_decision (g : GateState) (V I SOC : ℚ) :
    (g.lastSOC = -1 → computePub g V I SOC = true) ∧
    (g.lastSOC ≠ -1 →
      (computePub g V I SOC = true ↔
        1/10 ≤ |V - g.lastV| ∨ 1/5 ≤ |I - g.lastI| ∨
        1/2 ≤ |SOC - g.lastSOC|)) := by
  unfold computePub
  constructor
  · intro h
    split_ifs <;> simp_all
  · intro h
    split_ifs <;> simp_all <;> tauto

/-- C2 witness: a fresh gate publishes; against the baseline
(SOC 50, 24 V, 1 A) a reading of (50, 24 V, 1.25 A) publishes by the
current delta alone. -/
theorem C2_gate_decision_witness :
    computePub initialGate 24 1 50 = true ∧
    (computePub ⟨50, 24, 1⟩ 24 (5/4) 50 = true ↔
      1/10 ≤ |(24:ℚ) - 24| ∨ 1/5 ≤ |(5/4:ℚ) - 1| ∨ 1/2 ≤ |(50:ℚ) - 50|) :=
  ⟨(C2_gate_decision initialGate 24 1 50).1 rfl,
   (C2_gate_decision ⟨50, 24, 1⟩ 24 (5/4) 50).2 (by norm_num)⟩

/-- C3 counterexample: with baseline (SOC 50, 24 V, 1 A) and a strongly
changed reading, the decision is true, yet with the MQTT client
disconnected the baseline is left untouched — refuting "whenever the
decision is true, all three stored fields are replaced". -/
theorem C3_counterexample :
    computePub ⟨50, 24, 1⟩ 25 2 60 = true ∧
    (loopStep ⟨50, 24, 1⟩ 25 2 60 false false).1 = ⟨50, 24, 1⟩ ∧
    (loopStep ⟨50, 24, 1⟩ 25 2 60 false false).1 ≠ ⟨60, 25, 2⟩ := by
  refine ⟨by norm_num [computePub], ?_, ?_⟩ <;>
    norm_num [loopStep, computePub]

/-- C3 amended: the baseline is replaced by the new reading exactly when
the decision is true, the client is connected, and the publish call
succeeds; when the decision is false, or the transport fails, the
baseline is unchanged. -/
theorem C3_gate_update (g : GateState) (V I SOC : ℚ) (conn ok : Bool) :
    (computePub g V I SOC = false → (loopStep g V I SOC conn ok).1 = g) ∧
    (computePub g V I SOC = true → conn = true → ok = true →
      (loopStep g V I SOC conn ok).1 = ⟨SOC, V, I⟩) ∧
    (conn = false ∨ ok = false → (loopStep g V I SOC conn ok).1 = g) := by
  unfold loopStep
  refine ⟨?_, ?_, ?_⟩
  · intro h; simp [h]
  · intro h hc ho; simp [h, hc, ho]
  · rintro (h | h) <;> subst h <;>
      cases hpub : computePub g V I SOC <;> simp [hpub] <;>
      cases conn <;> simp

/-- C3 amended witness: a fresh gate with a connected client and a
successful publish records the reading (24 V, 1 A, SOC 50). -/
theorem C3_gate_update_witness :
    (loopStep initialGate 24 1 50 true true).1 = ⟨50, 24, 1⟩ :=
  (C3_gate_update initialGate 24 1 50 true true).2.1
    (by norm_num [computePub, initialGate]) rfl rfl

/-- C5: over the data-model SOC domain [0,100], time-to-full is the `-1`
sentinel exactly when the current is nonnegative and otherwise the
capacity-based formula with 0.95 efficiency; time-to-empty is `-1`
exactly when the current is nonpositive and otherwise the discharge
formula. -/
theorem C5_time_formulas (c s : ℚ) (h0 : 0 ≤ s) (h100 : s ≤ 100) :
    (estimateTimeToFull_hours c s = -1 ↔ 0 ≤ c) ∧
    (c < 0 → estimateTimeToFull_hours c s =
      (CAP_AH * (100 - s) / 100) / (|c| * (19/20))) ∧
    (estimateTimeToEmpty_hours c s = -1 ↔ c ≤ 0) ∧
    (0 < c → estimateTimeToEmpty_hours c s = (CAP_AH * s / 100) / c) := by
  unfold estimateTimeToFull_hours estimateTimeToEmpty_hours
  rw [CAP_AH]
  refine ⟨?_, ?_, ?_, ?_⟩
  · constructor
    · intro h
      by_contra hc
      push_neg at hc
      rw [if_neg (by linarith)] at h
      have hnum : (0:ℚ) ≤ 100 * (100 - s) / 100 :=
        div_nonneg (by nlinarith) (by norm_num)
      have hden : (0:ℚ) < (-c) * (19/20) :=
        mul_pos (by linarith) (by norm_num)
      have := div_nonneg hnum hden.le
      rw [h] at this
      norm_num at this
    · intro h
      rw [if_pos h]
  · intro h
    rw [if_neg (by linarith), abs_of_neg h]
  · constructor
    · intro h
      by_contra hc
      push_neg at hc
      rw [if_neg (by linarith)] at h
      have hnum : (0:ℚ) ≤ 100 * s / 100 := by positivity
      have := div_nonneg hnum hc.le
      rw [h] at this
      norm_num at this
    · intro h
      rw [if_pos h]
  · intro h
    rw [if_neg (by linarith)]

/-- C5 witness: a 1.5 A charge at SOC 50 yields the charging formula, and
a 1.5 A discharge at SOC 50 is not the sentinel. -/
theorem C5_time_formulas_witness :
    (estimateTimeToFull_hours (-(3/2)) 50 =
      (CAP_AH * (100 - 50) / 100) / (|(-(3/2):ℚ)| * (19/20))) ∧
    (estimateTimeToEmpty_hours (3/2) 50 = -1 ↔ (3/2:ℚ) ≤ 0) :=
  ⟨(C5_time_formulas (-(3/2)) 50 (by norm_num) (by norm_num)).2.1
      (by norm_num),
   (C5_time_formulas (3/2) 50 (by norm_num) (by norm_num)).2.2.1⟩

/-- C6 counterexample: a sample with current 0.05 A sits inside the
±0.1 A deadband and is classified `Reposo` (Resting), yet its
time-to-empty is the finite value 1000 h, not the `-1` not-applicable
sentinel — the ESP32 computes the time fields against a zero threshold,
not against the backend's deadband. -/
theorem C6_counterexample :
    determinarEstado (1/20) = Estado.Reposo ∧
    estimateTimeToEmpty_hours (1/20) 50 = 1000 ∧
    estimateTimeToEmpty_hours (1/20) 50 ≠ -1 := by
  refine ⟨?_, ?_, ?_⟩ <;>
    norm_num [determinarEstado, estimateTimeToEmpty_hours, CAP_AH]

/-- C6 amended: time-to-full is `-1` whenever the current is
nonnegative — in particular whenever the mode is Discharging — and
time-to-empty is `-1` whenever the current is nonpositive — in
particular whenever the mode is Charging; a Resting sample at exactly
zero current carries `-1` for both, but Resting samples with current in
(0, 0.1] carry a finite time-to-empty (and in [-0.1, 0) a finite
time-to-full). -/
theorem C6_time_na_modes (c s : ℚ) :
    (0 ≤ c → estimateTimeToFull_hours c s = -1) ∧
    (determinarEstado c = Estado.Descargando →
      estimateTimeToFull_hours c s = -1) ∧
    (c ≤ 0 → estimateTimeToEmpty_hours c s = -1) ∧
    (determinarEstado c = Estado.Cargando →
      estimateTimeToEmpty_hours c s = -1) ∧
    (c = 0 → estimateTimeToFull_hours c s = -1 ∧
      estimateTimeToEmpty_hours c s = -1) := by
  have hfull : 0 ≤ c → estimateTimeToFull_hours c s = -1 := fun h => by
    unfold estimateTimeToFull_hours; rw [if_pos h]
  have hempty : c ≤ 0 → estimateTimeToEmpty_hours c s = -1 := fun h => by
    unfold estimateTimeToEmpty_hours; rw [if_pos h]
  refine ⟨hfull, ?_, hempty, ?_, ?_⟩
  · intro h
    unfold determinarEstado at h
    split_ifs at h
    exact hfull (by linarith)
  · intro h
    unfold determinarEstado at h
    split_ifs at h with h1
    exact hempty (by linarith)
  · intro h
    exact ⟨hfull (by linarith), hempty (by linarith)⟩

/-- C6 amended witness: at 2.5 A discharge the time-to-full is the
sentinel, and at rest (0 A) both fields are. -/
theorem C6_time_na_modes_witness :
    estimateTimeToFull_hours (5/2) 50 = -1 ∧
    (estimateTimeToFull_hours 0 50 = -1 ∧
      estimateTimeToEmpty_hours 0 50 = -1) :=
  ⟨(C6_time_na_modes (5/2) 50).1 (by norm_num),
   (C6_time_na_modes 0 50).2.2.2.2 rfl⟩

/-- C7 counterexample: with the bounds misconfigured to
vMin = vMax = 24, `calculateSOC_core` still runs the interpolation and
returns the ordinary SOC value 0 for voltage 24.5 — the source contains
no vMax ≤ vMin check and no error path at all, refuting the fail-fast
claim.  (In this exact-arithmetic model the division by zero yields 0;
in the C float code the same call yields NaN or infinity, a nonsensical
SOC, not a configuration error.) -/
theorem C7_counterexample : calculateSOC_core 24 24 (49/2) = 0 := by
  norm_num [calculateSOC_core]

/-- C7 amended: the code never fails fast on vMax ≤ vMin: under any such
misconfiguration the unchecked interpolation still returns a clamped
value in [0,100] in the exact-arithmetic model, with no configuration
error signalled. -/
theorem C7_no_failfast (vMin vMax v : ℚ) (hconf : vMax ≤ vMin) :
    0 ≤ calculateSOC_core vMin vMax v ∧
    calculateSOC_core vMin vMax v ≤ 100 := by
  unfold calculateSOC_core
  constructor <;> split_ifs <;> linarith

/-- C7 amended witness: the degenerate configuration vMin = vMax = 24 at
voltage 24.5 stays inside [0,100]. -/
theorem C7_no_failfast_witness :
    0 ≤ calculateSOC_core 24 24 (49/2) ∧
    calculateSOC_core 24 24 (49/2) ≤ 100 :=
  C7_no_failfast 24 24 (49/2) le_rfl

/-- C1: on the SOC trace [25, 19, 21, 19, 26] from Normal the handler
fires exactly once (first 19) and performs the recovery reset exactly
once (at 26); in general a fire happens only from Normal with SOC
strictly below 20, an active alert never re-fires, and the flag returns
to Normal only on SOC at or above 25. -/
theorem C1_hysteresis :
    (runAlertas telegramInicial [25, 19, 21, 19, 26]).2 =
      [(false, false), (true, false), (false, false), (false, false),
        (false, true)] ∧
    (∀ st soc, (onNuevosDatos st soc).2.1 = true →
      st.alertaBajaEnviada = false ∧ soc < bateriaBaja) ∧
    (∀ st soc, st.alertaBajaEnviada = true →
      (onNuevosDatos st soc).2.1 = false) ∧
    (∀ st soc, st.alertaBajaEnviada = true →
      (onNuevosDatos st soc).1.alertaBajaEnviada = false →
      recuperacion ≤ soc) := by
  refine ⟨?_, ?_, ?_, ?_⟩
  · norm_num [runAlertas, onNuevosDatos, enviarAlertaBateriaBaja,
      telegramInicial, bateriaBaja, recuperacion]
  · intro st soc h
    simp only [onNuevosDatos] at h
    split_ifs at h with hc
    exact ⟨hc.2, hc.1⟩
  · intro st soc h
    simp [onNuevosDatos, h]
  · intro st soc h1 h2
    by_cases hr : recuperacion ≤ soc
    · exact hr
    · simp [onNuevosDatos, h1, hr] at h2

/-- C1 witness: with the alert already active, SOC 19 does not re-fire. -/
theorem C1_hysteresis_witness :
    (onNuevosDatos ⟨[], true⟩ 19).2.1 = false :=
  C1_hysteresis.2.2.1 ⟨[], true⟩ 19 rfl

/-- Helper for the subscriber-cap invariant: one subscribe request keeps
the set within the cap. -/
theorem agregarSuscriptor_length_le (st : TelegramState) (id : Nat)
    (h : st.suscriptores.length ≤ maxSuscriptores) :
    ((agregarSuscriptor st id).1).suscriptores.length ≤ maxSuscriptores := by
  unfold agregarSuscriptor
  split_ifs with h1 h2
  · exact h
  · exact h
  · simp only [List.length_cons]
    unfold maxSuscriptores at h1 ⊢
    omega

/-- Helper for the subscriber-cap invariant: one unsubscribe request
keeps the set within the cap. -/
theorem eliminarSuscriptor_length_le (st : TelegramState) (id : Nat)
    (h : st.suscriptores.length ≤ maxSuscriptores) :
    ((eliminarSuscriptor st id).1).suscriptores.length ≤ maxSuscriptores := by
  unfold eliminarSuscriptor
  split_ifs
  · exact le_trans (List.length_erase_le _ _) h
  · exact h

/-- C8: a subscribe request at the cap of 10 is rejected with the state
untouched; unsubscribing a non-member is a rejected no-op; and any
sequence of subscribe/unsubscribe requests keeps the subscriber set
within the cap. -/
theorem C8_suscriptores (st : TelegramState) (id : Nat)
    (ops : List OpSuscriptor) :
    (st.suscriptores.length = maxSuscriptores →
      agregarSuscriptor st id = (st, false)) ∧
    (id ∉ st.suscriptores → eliminarSuscriptor st id = (st, false)) ∧
    (st.suscriptores.length ≤ maxSuscriptores →
      (runSuscriptores st ops).suscriptores.length ≤ maxSuscriptores) := by
  refine ⟨?_, ?_, ?_⟩
  · intro h
    unfold agregarSuscriptor
    rw [if_pos (le_of_eq h.symm)]
  · intro h
    unfold eliminarSuscriptor
    rw [if_neg h]
  · intro h
    induction ops generalizing st with
    | nil => exact h
    | cons op rest ih =>
      cases op with
      | suscribir id2 =>
        exact ih _ (agregarSuscriptor_length_le st id2 h)
      | desuscribir id2 =>
        exact ih _ (eliminarSuscriptor_length_le st id2 h)

/-- C8 witness: with ten subscribers an eleventh distinct id is
rejected; unsubscribing the non-member 2 from \x7b1\x7d is a no-op; the
cap survives an over-cap subscribe request. -/
theorem C8_suscriptores_witness :
    agregarSuscriptor ⟨[0, 1, 2, 3, 4, 5, 6, 7, 8, 9], false⟩ 10 =
      (⟨[0, 1, 2, 3, 4, 5, 6, 7, 8, 9], false⟩, false) ∧
    eliminarSuscriptor ⟨[1], false⟩ 2 = (⟨[1], false⟩, false) ∧
    (runSuscriptores ⟨[0, 1, 2, 3, 4, 5, 6, 7, 8, 9], false⟩
      [OpSuscriptor.suscribir 10]).suscriptores.length ≤ maxSuscriptores :=
  ⟨(C8_suscriptores ⟨[0, 1, 2, 3, 4, 5, 6, 7, 8, 9], false⟩ 10 []).1 rfl,
   (C8_suscriptores ⟨[1], false⟩ 2 []).2.1 (by decide),
   (C8_suscriptores ⟨[0, 1, 2, 3, 4, 5, 6, 7, 8, 9], false⟩ 0
      [OpSuscriptor.suscribir 10]).2.2 (by decide)⟩

/-- C9 counterexample: a parsed sample with its voltage key absent is
not dropped — processing it replaces the stored state (voltage coerced
to 0) and emits the new-data event, refuting "the stored last-known
state is left unchanged and no new-data event is emitted". -/
theorem C9_counterexample :
    (procesarMensaje ultimoEstadoInicial
      (some ⟨none, some 2, some 50, some (-1), some 10⟩)).1 ≠
      ultimoEstadoInicial ∧
    (procesarMensaje ultimoEstadoInicial
      (some ⟨none, some 2, some 50, some (-1), some 10⟩)).2 = true ∧
    (procesarMensaje ultimoEstadoInicial
      (some ⟨none, some 2, some 50, some (-1), some 10⟩)).1 =
      ⟨0, 2, 50, -1, 10, true, Estado.Descargando⟩ := by
  refine ⟨?_, rfl, ?_⟩ <;>
    norm_num [procesarMensaje, ultimoEstadoInicial, determinarEstado]

/-- C9 amended: only a payload that fails JSON parsing is dropped (state
unchanged, no event); every parsed sample — including one missing
voltage or current, whose absent fields are coerced to 0 — replaces the
stored state and emits the new-data event. -/
theorem C9_solo_json_invalido (st : UltimoEstado)
    (m : Option DatosCrudos) :
    ((procesarMensaje st m).2 = true ↔ m ≠ none) ∧
    (m = none → (procesarMensaje st m).1 = st) ∧
    (∀ d, m = some d → (procesarMensaje st m).1 =
      ⟨d.voltage.getD 0, d.current.getD 0, d.soc.getD 0,
        d.time_to_full.getD 0, d.time_to_empty.getD 0, true,
        determinarEstado (d.current.getD 0)⟩) := by
  refine ⟨?_, ?_, ?_⟩
  · cases m <;> simp [procesarMensaje]
  · intro h
    subst h
    rfl
  · intro d hd
    subst hd
    rfl

/-- C9 amended witness: an unparseable payload leaves the initial state
in place. -/
theorem C9_solo_json_invalido_witness :
    (procesarMensaje ultimoEstadoInicial none).1 = ultimoEstadoInicial :=
  (C9_solo_json_invalido ultimoEstadoInicial none).2.1 rfl

/-- C10: an SOC below 20 arriving in Normal with no subscribers delivers
the alert to nobody yet raises the one-shot flag; while the flag is up,
any reading sequence that never reaches 25 delivers no alert to anyone
(in particular not to a subscriber who joined after the flag was
consumed); and from the active state a recovery reading (at least 25)
followed by a low reading (below 20) delivers the alert to the then
current subscribers. -/
theorem C10_alerta_sin_suscriptores :
    (∀ st soc, st.alertaBajaEnviada = false → st.suscriptores = [] →
      soc < bateriaBaja →
      (onNuevosDatos st soc).2.2.2 = [] ∧
      (onNuevosDatos st soc).2.1 = true ∧
      (onNuevosDatos st soc).1.alertaBajaEnviada = true) ∧
    (∀ socs st, st.alertaBajaEnviada = true →
      (∀ x ∈ socs, x < recuperacion) →
      (runAlertasEnviados st socs).2 = []) ∧
    (∀ st s1 s2, st.alertaBajaEnviada = true → recuperacion ≤ s1 →
      s2 < bateriaBaja → st.suscriptores ≠ [] →
      (runAlertasEnviados st [s1, s2]).2 = st.suscriptores) := by
  refine ⟨?_, ?_, ?_⟩
  · intro st soc hflag hsubs hsoc
    have hrec : ¬ (recuperacion ≤ soc) := by
      rw [recuperacion]; rw [bateriaBaja] at hsoc; linarith
    refine ⟨?_, ?_, ?_⟩ <;>
      simp [onNuevosDatos, enviarAlertaBateriaBaja, hflag, hsubs, hsoc,
        hrec]
  · intro socs
    induction socs with
    | nil => intro st h1 h2; rfl
    | cons x rest ih =>
      intro st hflag hall
      have hx : ¬ (recuperacion ≤ x) :=
        not_le.mpr (hall x (List.mem_cons_self x rest))
      have hrest : ∀ y ∈ rest, y < recuperacion := fun y hy =>
        hall y (List.mem_cons_of_mem x hy)
      have henv : (onNuevosDatos st x).2.2.2 = [] := by
        simp [onNuevosDatos, hflag]
      have hflag1 : (onNuevosDatos st x).1.alertaBajaEnviada = true := by
        simp [onNuevosDatos, hflag, hx]
      simp only [runAlertasEnviados]
      rw [henv, ih _ hflag1 hrest]
      rfl
  · intro st s1 s2 hflag h1 h2 hsub
    have hlen : ¬ (st.suscriptores.length = 0) := by
      simpa [List.length_eq_zero] using hsub
    have hn2 : ¬ (recuperacion ≤ s2) := by
      rw [recuperacion]; rw [bateriaBaja] at h2; linarith
    simp [runAlertasEnviados, onNuevosDatos, enviarAlertaBateriaBaja,
      hflag, h1, h2, hn2, hlen]

/-- C10 witness: from the active state with subscriber 7, a recovery at
SOC 30 followed by a drop to SOC 10 delivers the alert to subscriber 7. -/
theorem C10_alerta_sin_suscriptores_witness :
    (runAlertasEnviados ⟨[7], true⟩ [30, 10]).2 = [7] :=
  C10_alerta_sin_suscriptores.2.2 ⟨[7], true⟩ 30 10 rfl
    (by norm_num [recuperacion]) (by norm_num [bateriaBaja]) (by decide)

end BateriaMonitor
